import Mathlib

/-!
Verification of the dagger Python-SDK glue module
(`universe/dagger/pysdk/main.py`).

The module registers two actions against a hosting environment:
`publish` (via the `@env.command` decorator) and `lint` (via the
`@env.check` decorator).  Each action builds the same fluent chain
against the external engine's client —
`dagger.container().from_("python:3.11.1-alpine").with_exec(["python",
"-V"]).stdout()` — awaits it, and returns the resulting text.

The dagger client library (`dagger.container`, `from_`, `with_exec`,
`stdout`) and the hosting `Environment` are code of the repository that
is not part of the excerpt, so they are modelled from the spec as a
pure builder producing a stdout query, with the external engine left
abstract as a function from queries to results.  The glue module itself
is embedded from the source.
-/

namespace Dagger

/-- Modelled from the spec: the three failure classes the spec names for
the external engine (image pull failure, non-zero command exit, engine
connectivity failure), kept opaque — the script never inspects them. -/
inductive EngineFailure where
  | imagePull (msg : String)
  | nonZeroExit (code : Nat) (msg : String)
  | connectivity (msg : String)
deriving DecidableEq, Repr

/-- Modelled from the spec: the builder-pattern container handle of the
external engine's client.  The script only chains calls on it: a base
image selected by tag and a list of queued command executions. -/
structure Container where
  image : Option String
  execArgs : List (List String)
deriving DecidableEq, Repr

/-- Modelled from the spec: `dagger.container()` — a fresh handle with
no base image and no queued executions. -/
def container : Container :=
  { image := none, execArgs := [] }

/-- Modelled from the spec: base-image selection by tag. -/
def Container.from_ (c : Container) (tag : String) : Container :=
  { c with image := some tag }

/-- Modelled from the spec: chain an execution step onto the handle. -/
def Container.with_exec (c : Container) (args : List String) : Container :=
  { c with execArgs := c.execArgs ++ [args] }

/-- Modelled from the spec: the request that `.stdout()` issues to the
external engine — capture the standard output of the chained container. -/
structure StdoutQuery where
  container : Container
deriving DecidableEq, Repr

/-- Modelled from the spec: `.stdout()` turns the chained handle into a
stdout-capture request for the engine. -/
def Container.stdout (c : Container) : StdoutQuery :=
  ⟨c⟩

/-- Modelled from the spec: the external engine, treated as a black-box
collaborator that answers a stdout query with either the captured output
text or an opaque failure.  Awaiting the chain is one suspend point, so
an action's run is the engine's answer to its query. -/
abbrev Engine := StdoutQuery → Except EngineFailure String

/-- Embedded from the source (`main.py`, `publish`): build the chain
`dagger.container().from_("python:3.11.1-alpine").with_exec(["python",
"-V"]).stdout()`, await it and return the text. -/
def publish (eng : Engine) : Except EngineFailure String :=
  eng ((((container).from_ "python:3.11.1-alpine").with_exec
        ["python", "-V"]).stdout)

/-- Embedded from the source (`main.py`, `lint`): the same chain as
`publish`, built independently. -/
def lint (eng : Engine) : Except EngineFailure String :=
  eng ((((container).from_ "python:3.11.1-alpine").with_exec
        ["python", "-V"]).stdout)

/-- The single query `publish` sends to the engine. -/
def publishQuery : StdoutQuery :=
  (((container).from_ "python:3.11.1-alpine").with_exec
    ["python", "-V"]).stdout

/-- The single query `lint` sends to the engine. -/
def lintQuery : StdoutQuery :=
  (((container).from_ "python:3.11.1-alpine").with_exec
    ["python", "-V"]).stdout

/-- Modelled from the spec: the two registration kinds the hosting
environment offers, `@env.command` and `@env.check`. -/
inductive RegKind where
  | command
  | check
deriving DecidableEq, Repr

/-- Modelled from the spec: one registered action.  The hosting
environment records how it was registered, the function's name, its
docstring as human-readable description, and the zero-argument
asynchronous body returning text (a function of the engine alone). -/
structure Registration where
  kind : RegKind
  name : String
  description : String
  action : Engine → Except EngineFailure String

/-- Modelled from the spec: the hosting environment holds the list of
registered actions, in registration order. -/
structure Environment where
  registrations : List Registration

/-- Modelled from the spec: `Environment()` starts empty. -/
def Environment.new : Environment :=
  ⟨[]⟩

/-- Modelled from the spec: the `@env.command` decorator registers the
decorated function under its own name with its docstring. -/
def Environment.command (e : Environment) (name description : String)
    (act : Engine → Except EngineFailure String) : Environment :=
  ⟨e.registrations ++ [⟨RegKind.command, name, description, act⟩]⟩

/-- Modelled from the spec: the `@env.check` decorator registers the
decorated function as a check under its own name with its docstring. -/
def Environment.check (e : Environment) (name description : String)
    (act : Engine → Except EngineFailure String) : Environment :=
  ⟨e.registrations ++ [⟨RegKind.check, name, description, act⟩]⟩

/-- Modelled from the spec: the externally visible name of a registered
action — a command appears under its own name, a check under its name
with "check: " prepended (the spec registers `lint` as "check: lint"). -/
def registeredAs (r : Registration) : String :=
  match r.kind with
  | RegKind.command => r.name
  | RegKind.check => "check: " ++ r.name

/-- Embedded from the source: module initialization.  `env =
Environment()` followed by the two decorator registrations, with each
function's docstring as its description. -/
def env : Environment :=
  ((Environment.new).command "publish" "Publish the client." publish).check
    "lint" "Lint the Python SDK" lint

/-- The registration added for `publish` at module initialization. -/
def publishReg : Registration :=
  ⟨RegKind.command, "publish", "Publish the client.", publish⟩

/-- The registration added for `lint` at module initialization. -/
def lintReg : Registration :=
  ⟨RegKind.check, "lint", "Lint the Python SDK", lint⟩

/-- Whether the character sequence `pat` occurs contiguously in `s`. -/
def containsSeq (pat : List Char) : List Char → Bool
  | [] => pat.isPrefixOf []
  | c :: t => pat.isPrefixOf (c :: t) || containsSeq pat t

/-- Whether a string carries the version marker of the pinned base
image, i.e. contains "3.11.1". -/
def hasMarker (s : String) : Bool :=
  containsSeq ("3.11.1").data s.data

/-- Modelled from the spec: an engine whose answer may additionally
depend on the history of queries it has already served (engine-side
caching or log noise).  A fixed engine behavior is one whose answers do
not depend on that history. -/
abbrev HistEngine := List StdoutQuery → StdoutQuery → Except EngineFailure String

end Dagger

namespace Dagger

/-- Claim C1: for every behavior of the external engine, invoking the
lint action returns exactly the same result as invoking the publish
action — both build the identical chain (same base image, same exec
command, same stdout request), so the two embedded functions are equal. -/
theorem C1_lint_equals_publish :
    (∀ eng : Engine, lint eng = publish eng) ∧ lintQuery = publishQuery :=
  ⟨fun _ => rfl, rfl⟩

/-- Claim C2 (counterexample): the two registrations do not agree on
every observable aspect other than the description — their registration
kinds differ (command vs check) and so do their externally visible
registered names. -/
theorem C2_counterexample :
    publishReg.kind ≠ lintReg.kind ∧
      registeredAs publishReg ≠ registeredAs lintReg := by
  constructor <;> decide

/-- Claim C2 (amended): the two registered actions have identical
behavior — for every engine they return the same result — and differ in
registration kind, registered name and description metadata. -/
theorem C2_amended_behavior_identical :
    (∀ eng : Engine, publishReg.action eng = lintReg.action eng) ∧
      publishReg.kind ≠ lintReg.kind ∧
      publishReg.name ≠ lintReg.name ∧
      publishReg.description ≠ lintReg.description :=
  ⟨fun _ => rfl, by decide, by decide, by decide⟩

/-- Claim C3: module initialization registers exactly two actions, each
a zero-argument body of type `Engine → Except EngineFailure String`
(asynchronously awaited, returning text), externally visible as
"publish" and "check: lint" in that order. -/
theorem C3_registered_names :
    env.registrations.length = 2 ∧
      env.registrations.map registeredAs = ["publish", "check: lint"] := by
  constructor
  · rfl
  · decide

/-- Claim C4: for every engine response, each action sends the engine
the one fixed query — container from image tag "python:3.11.1-alpine"
with the single queued command ["python", "-V"] — and when the engine
answers with captured output text, returns that text verbatim with no
local transformation. -/
theorem C4_fixed_chain_verbatim (eng : Engine) (out : String)
    (hp : eng publishQuery = Except.ok out) :
    publish eng = Except.ok out ∧ lint eng = Except.ok out ∧
      publishQuery.container.image = some "python:3.11.1-alpine" ∧
      publishQuery.container.execArgs = [["python", "-V"]] ∧
      lintQuery = publishQuery :=
  ⟨hp, hp, rfl, rfl, rfl⟩

/-- Witness for C4 at a concrete engine answering with a version string. -/
theorem C4_witness :
    publish (fun _ => Except.ok "Python 3.11.1") = Except.ok "Python 3.11.1" ∧
      lint (fun _ => Except.ok "Python 3.11.1") = Except.ok "Python 3.11.1" ∧
      publishQuery.container.image = some "python:3.11.1-alpine" ∧
      publishQuery.container.execArgs = [["python", "-V"]] ∧
      lintQuery = publishQuery :=
  C4_fixed_chain_verbatim (fun _ => Except.ok "Python 3.11.1")
    "Python 3.11.1" rfl

/-- Claim C5: every failure the engine reports for the fixed query —
image pull failure, non-zero command exit, or connectivity failure —
is propagated unmodified by both actions: the result is exactly that
error, never a default or fallback value. -/
theorem C5_failure_propagation (eng : Engine) (err : EngineFailure)
    (h : eng publishQuery = Except.error err) :
    publish eng = Except.error err ∧ lint eng = Except.error err :=
  ⟨h, h⟩

/-- Witness for C5 at a concrete unreachable engine. -/
theorem C5_witness :
    publish (fun _ => Except.error (EngineFailure.connectivity "unreachable"))
        = Except.error (EngineFailure.connectivity "unreachable") ∧
      lint (fun _ => Except.error (EngineFailure.connectivity "unreachable"))
        = Except.error (EngineFailure.connectivity "unreachable") :=
  C5_failure_propagation
    (fun _ => Except.error (EngineFailure.connectivity "unreachable"))
    (EngineFailure.connectivity "unreachable") rfl

/-- Claim C6: both actions are idempotent — against any engine whose
behavior is fixed (its answers do not depend on the history of prior
queries), invoking publish (or lint) a second time, after its own first
invocation has been recorded in the history, produces the same output. -/
theorem C6_idempotent (heng : HistEngine)
    (hfixed : ∀ h1 h2 q, heng h1 q = heng h2 q) (h0 : List StdoutQuery) :
    publish (heng h0) = publish (heng (h0 ++ [publishQuery])) ∧
      lint (heng h0) = lint (heng (h0 ++ [lintQuery])) :=
  ⟨hfixed h0 (h0 ++ [publishQuery]) publishQuery,
   hfixed h0 (h0 ++ [lintQuery]) lintQuery⟩

/-- Witness for C6 at a concrete history-insensitive engine. -/
theorem C6_witness :
    publish ((fun _ _ => Except.ok "Python 3.11.1" : HistEngine) [])
        = publish ((fun _ _ => Except.ok "Python 3.11.1" : HistEngine)
            ([] ++ [publishQuery])) ∧
      lint ((fun _ _ => Except.ok "Python 3.11.1" : HistEngine) [])
        = lint ((fun _ _ => Except.ok "Python 3.11.1" : HistEngine)
            ([] ++ [lintQuery])) :=
  C6_idempotent (fun _ _ => Except.ok "Python 3.11.1")
    (fun _ _ _ => rfl) []

/-- Claim C7: against a reachable engine that actually executes the
chained command for the pinned base image — so its answer to the fixed
query is captured output that is non-empty and carries the image's
version marker "3.11.1" — publish returns a non-empty string containing
that version marker. -/
theorem C7_publish_version_marker (eng : Engine)
    (h : ∃ out, eng publishQuery = Except.ok out ∧ out ≠ "" ∧
          hasMarker out = true) :
    (∃ s, publish eng = Except.ok s ∧ s ≠ "" ∧ hasMarker s = true) ∧
      publishQuery.container.image = some "python:3.11.1-alpine" :=
  ⟨h, rfl⟩

/-- Witness for C7 at a concrete faithful engine. -/
theorem C7_witness :
    (∃ s, publish (fun _ => Except.ok "Python 3.11.1") = Except.ok s ∧
        s ≠ "" ∧ hasMarker s = true) ∧
      publishQuery.container.image = some "python:3.11.1-alpine" :=
  C7_publish_version_marker (fun _ => Except.ok "Python 3.11.1")
    ⟨"Python 3.11.1", rfl, by decide, by decide⟩

/-- Claim C8: every invocation of either action passes the engine
exactly one query, and it is the query with image tag
"python:3.11.1-alpine" and the single command list ["python", "-V"];
no other image tag or command is ever passed. -/
theorem C8_only_fixed_image_and_command (eng : Engine) :
    publish eng = eng publishQuery ∧ lint eng = eng publishQuery ∧
      publishQuery =
        ⟨⟨some "python:3.11.1-alpine", [["python", "-V"]]⟩⟩ :=
  ⟨rfl, rfl, rfl⟩

/-- Claim C9: after module initialization the environment holds exactly
two registered entries and no more — publish through the command
registration kind, then lint through the check registration kind. -/
theorem C9_registry_invariant :
    env.registrations.length = 2 ∧
      env.registrations.map (fun r => (r.kind, r.name))
        = [(RegKind.command, "publish"), (RegKind.check, "lint")] :=
  ⟨rfl, rfl⟩

/-- Claim C10: each action's result is determined solely by the
engine's response to its fixed query — two engines that agree on the
fixed queries make publish (and lint) return identical results, since
neither function reads arguments, global mutable state, or any ambient
input. -/
theorem C10_engine_determined (eng1 eng2 : Engine)
    (hp : eng1 publishQuery = eng2 publishQuery)
    (hl : eng1 lintQuery = eng2 lintQuery) :
    publish eng1 = publish eng2 ∧ lint eng1 = lint eng2 :=
  ⟨hp, hl⟩

/-- Witness for C10 at two syntactically different engines agreeing on
the fixed query. -/
theorem C10_witness :
    publish (fun _ => Except.ok "Python 3.11.1")
        = publish (fun q => Except.ok (if q = publishQuery
            then "Python 3.11.1" else "")) ∧
      lint (fun _ => Except.ok "Python 3.11.1")
        = lint (fun q => Except.ok (if q = publishQuery
            then "Python 3.11.1" else "")) :=
  C10_engine_determined (fun _ => Except.ok "Python 3.11.1")
    (fun q => Except.ok (if q = publishQuery then "Python 3.11.1" else ""))
    (by simp) (by simp [lintQuery, publishQuery])

end Dagger
